import Mathlib

/-!
# The MQTT link of the agent-cloud link (`aclk/mqtt.c`)

A shallow embedding of `aclk/mqtt.c`.  The file keeps three globals
(`mosq`, `_on_connect`, `_on_disconnect`) and writes one extern global
(`aclk_connection_initialized`); these make up `State`.  Every call that leaves
the file (libmosquitto, the logger, the command queue, the health subsystem, the
two registered handlers, `sleep_usec`, the store to `errno`) is recorded, in
program order, as an `Event`; a function of the source becomes a Lean function
from the state to a `Result`: its return value, the state after it and the
events of the call.

The values libmosquitto returns are not decided by this file: they are taken
from a `Transport`, one field per library function, each a function of the
arguments of the call.  `mosquitto_loop` additionally hands back the callbacks the
library fires while the loop cycle runs, which the embedding dispatches to
`connect_callback`, `disconnect_callback` and `mqtt_message_callback`.

The two registered handlers are code outside the file: a call through `_on_connect`
or `_on_disconnect` is recorded with the pointer called and its argument, and the
handler is taken not to write the globals of this file.  Log lines are recorded by
call site with their integer arguments; the text `mosquitto_strerror` renders is not
modelled.
-/

namespace Aclk

/-! ## Data model -/

/-- A non-NULL `struct mosquitto *`; the NULL pointer is `none : Option Handle`. -/
abbrev Handle := Nat

/-- A non-NULL `void (*)(void *)`; the NULL pointer is `none : Option Handler`. -/
abbrev Handler := Nat

/-- The bytes a `char *` points to.  C reads them up to the first NUL byte; the end
of the list stands for the terminating NUL. -/
abbrev CStr := List Nat

/-- The enumerator `MOSQ_ERR_SUCCESS` of libmosquitto's `enum mosq_err_t`. -/
def MOSQ_ERR_SUCCESS : Int := 0

/-- The macros `mqtt.c` takes from headers: `ACLK_*` from `mqtt.h`, `USEC_PER_SEC` from
the daemon's clock header, the last two from `mosquitto.h`.  Their values are
parameters of the embedding. -/
structure Consts where
  ACLK_RECONNECT_DELAY : Int
  ACLK_MAX_RECONNECT_DELAY : Int
  ACLK_PING_INTERVAL : Int
  ACLK_QOS : Int
  USEC_PER_SEC : Nat
  MQTT_PROTOCOL_V311 : Int
  MOSQ_OPT_SEND_MAXIMUM : Int
deriving DecidableEq, Repr

/-- The fields of `struct mosquitto_message` the file reads: `payload` holds the
`payloadlen` bytes of the message (the library appends a NUL after them); the pointer
is taken to be non-NULL. -/
structure mosquitto_message where
  topic : CStr
  payload : List Nat
  payloadlen : Int
deriving DecidableEq, Repr

/-- A callback libmosquitto fires from inside `mosquitto_loop`. -/
inductive Callback where
  | connect
  | disconnect
  | message (msg : mosquitto_message)
deriving DecidableEq, Repr

/-- The log lines of the file, one constructor per `info`/`error` call site, with the
integer arguments of the line. -/
inductive Msg where
  | received (payloadlen : Int)
  | reloading_health
  | connection_established
  | connection_failed
  | library_version
  | lib_init_failed
  | new_structure_failed
  | thread_model_failed
  | protocol_failed (rc : Int)
  | in_flight_set (rc : Int)
  | connect_failed (rc : Int)
  | establishing_link
  | loop_error (rc : Int)
  | reconnect_error (rc : Int)
  | disconnected_from_broker
  | invalid_structure
  | subscription_failed (rc : Int)
  | message_failed (rc : Int)
deriving DecidableEq, Repr

/-- Everything a function of the file does outside the file, in program order. -/
inductive Event where
  | info (m : Msg)
  | error (m : Msg)
  | set_errno (v : Int)
  | sleep_usec (usec : Nat)
  | aclk_queue_query (topic : CStr) (payload : List Nat)
  | health_reload
  | error_log_limit_unlimited
  | error_log_limit_reset
  | call_on_connect (fn : Option Handler) (ptr : Option Handle)
  | call_on_disconnect (fn : Option Handler) (ptr : Option Handle)
  | mosquitto_lib_version
  | mosquitto_lib_init
  | mosquitto_lib_cleanup
  | mosquitto_new
  | mosquitto_connect_callback_set (m : Option Handle)
  | mosquitto_disconnect_callback_set (m : Option Handle)
  | mosquitto_message_callback_set (m : Option Handle)
  | mosquitto_threaded_set (m : Option Handle) (threaded : Int)
  | mosquitto_int_option (m : Option Handle) (option value : Int)
  | mosquitto_reconnect_delay_set (m : Option Handle) (delay delay_max : Int) (exponential : Int)
  | mosquitto_connect_async (m : Option Handle) (host : CStr) (port keepalive : Int)
  | mosquitto_loop (m : Option Handle) (timeout max_packets : Int)
  | mosquitto_reconnect (m : Option Handle)
  | mosquitto_disconnect (m : Option Handle)
  | mosquitto_destroy (m : Option Handle)
  | mosquitto_subscribe (m : Option Handle) (sub : CStr) (qos : Int)
  | mosquitto_pub_topic_check (topic : CStr)
  | mosquitto_publish (m : Option Handle) (topic : CStr) (payloadlen : Int) (payload : CStr)
      (qos : Int) (retain : Int)
deriving DecidableEq, Repr

/-- What libmosquitto answers.  Each field is the return value of the library
function of that name, as a function of the arguments of the call;
`mosquitto_loop` also gives the callbacks fired during the cycle, in order. -/
structure Transport where
  mosquitto_lib_init : Int
  mosquitto_new : Option Handle
  mosquitto_threaded_set : Option Handle → Int → Int
  mosquitto_int_option : Option Handle → Int → Int → Int
  mosquitto_reconnect_delay_set : Option Handle → Int → Int → Int → Int
  mosquitto_connect_async : Option Handle → CStr → Int → Int → Int
  mosquitto_loop : Option Handle → Int → Int → Int × List Callback
  mosquitto_reconnect : Option Handle → Int
  mosquitto_disconnect : Option Handle → Int
  mosquitto_subscribe : Option Handle → CStr → Int → Int
  mosquitto_pub_topic_check : CStr → Int
  mosquitto_publish : Option Handle → CStr → Int → CStr → Int → Int → Int

/-- The globals: `mosq`, `_on_connect`, `_on_disconnect` of this file and the extern
`aclk_connection_initialized`. -/
structure State where
  mosq : Option Handle
  _on_connect : Option Handler
  _on_disconnect : Option Handler
  aclk_connection_initialized : Int
deriving DecidableEq, Repr

/-- The state when the program starts: the three pointers are initialised to NULL. -/
def State.init : State :=
  { mosq := none, _on_connect := none, _on_disconnect := none, aclk_connection_initialized := 0 }

/-- The outcome of one call: return value (`0` for a `void` function), the state
after the call and the events of the call. -/
structure Result where
  rc : Int
  state : State
  trace : List Event
deriving DecidableEq, Repr

/-! ## libc -/

/-- The function `strlen`: the number of bytes before the first NUL. -/
def strlen : CStr → Nat
  | [] => 0
  | c :: cs => if c = 0 then 0 else strlen cs + 1

/-- The function `strcmp`: the difference of the first pair of bytes that differ, `0`
when both strings end together. -/
def strcmp : CStr → CStr → Int
  | [], [] => 0
  | [], b :: _ => 0 - (b : Int)
  | a :: _, [] => (a : Int)
  | a :: as, b :: bs =>
    if a ≠ b then (a : Int) - (b : Int) else if a = 0 then 0 else strcmp as bs

/-- The conversion of a `size_t` to `int` on the usual 32-bit `int`. -/
def size_to_int (n : Nat) : Int :=
  if n % 2 ^ 32 < 2 ^ 31 then ((n % 2 ^ 32 : Nat) : Int) else ((n % 2 ^ 32 : Nat) : Int) - 2 ^ 32

/-- The bytes of the string literal `"reload"`. -/
def reload_literal : CStr := [114, 101, 108, 111, 97, 100]

/-! ## The functions of `mqtt.c` -/

/-- The function `mqtt_message_callback`. -/
def mqtt_message_callback (s : State) (msg : mosquitto_message) : Result :=
  let head := [Event.info (Msg.received msg.payloadlen),
               Event.aclk_queue_query msg.topic msg.payload]
  if strcmp msg.payload reload_literal = 0 then
    { rc := 0, state := s,
      trace := head ++ [Event.error_log_limit_unlimited, Event.info Msg.reloading_health,
                        Event.health_reload, Event.error_log_limit_reset] }
  else
    { rc := 0, state := s, trace := head }

/-- The function `connect_callback`; `m` is its parameter `mosq`. -/
def connect_callback (s : State) (m : Option Handle) : Result :=
  { rc := 0,
    state := { s with aclk_connection_initialized := 1 },
    trace := [Event.info Msg.connection_established, Event.call_on_connect s._on_connect m] }

/-- The function `disconnect_callback`; `m` is its parameter `mosq`. -/
def disconnect_callback (s : State) (m : Option Handle) : Result :=
  { rc := 0,
    state := s,
    trace := [Event.info Msg.connection_failed, Event.call_on_disconnect s._on_disconnect m] }

/-- The function `_show_mqtt_info`. -/
def _show_mqtt_info (s : State) : Result :=
  { rc := 0, state := s, trace := [Event.mosquitto_lib_version, Event.info Msg.library_version] }

/-- The function `_link_lib_init`. -/
def _link_lib_init (k : Consts) (t : Transport) (s : State) (aclk_hostname : CStr)
    (aclk_port : Int) (on_connect on_disconnect : Option Handler) : Result :=
  let tr0 := [Event.mosquitto_lib_version, Event.info Msg.library_version,
              Event.mosquitto_lib_init]
  if t.mosquitto_lib_init ≠ MOSQ_ERR_SUCCESS then
    { rc := 1, state := s, trace := tr0 ++ [Event.error Msg.lib_init_failed] }
  else
    let s1 := { s with mosq := t.mosquitto_new }
    let tr1 := tr0 ++ [Event.mosquitto_new]
    match t.mosquitto_new with
    | none =>
      { rc := 1, state := s1,
        trace := tr1 ++ [Event.mosquitto_lib_cleanup, Event.error Msg.new_structure_failed] }
    | some h =>
      let m : Option Handle := some h
      let s2 := { s1 with _on_connect := on_connect, _on_disconnect := on_disconnect }
      let tr2 := tr1 ++ [Event.mosquitto_connect_callback_set m,
                         Event.mosquitto_disconnect_callback_set m,
                         Event.mosquitto_threaded_set m 1]
      let rcT := t.mosquitto_threaded_set m 1
      let tr3 := tr2 ++ (if rcT ≠ MOSQ_ERR_SUCCESS then [Event.error Msg.thread_model_failed]
                         else [])
                     ++ [Event.mosquitto_int_option m k.MQTT_PROTOCOL_V311 0]
      let rcP := t.mosquitto_int_option m k.MQTT_PROTOCOL_V311 0
      let tr4 := tr3 ++ (if rcP ≠ MOSQ_ERR_SUCCESS then [Event.error (Msg.protocol_failed rcP)]
                         else [])
                     ++ [Event.mosquitto_int_option m k.MOSQ_OPT_SEND_MAXIMUM 1]
      let rcS := t.mosquitto_int_option m k.MOSQ_OPT_SEND_MAXIMUM 1
      let tr5 := tr4 ++ [Event.info (Msg.in_flight_set rcS),
                         Event.mosquitto_reconnect_delay_set m k.ACLK_RECONNECT_DELAY
                           k.ACLK_MAX_RECONNECT_DELAY 1,
                         Event.mosquitto_connect_async m aclk_hostname aclk_port
                           k.ACLK_PING_INTERVAL]
      let rc := t.mosquitto_connect_async m aclk_hostname aclk_port k.ACLK_PING_INTERVAL
      if rc ≠ MOSQ_ERR_SUCCESS then
        { rc := 1, state := s2, trace := tr5 ++ [Event.error (Msg.connect_failed rc)] }
      else
        { rc := 0, state := s2, trace := tr5 ++ [Event.info Msg.establishing_link] }

/-- One callback fired by the library on the handle `m`, run through the function the
file registers for it. -/
def run_callback (s : State) (m : Option Handle) : Callback → Result
  | Callback.connect => connect_callback s m
  | Callback.disconnect => disconnect_callback s m
  | Callback.message msg => mqtt_message_callback s msg

/-- The callbacks of one loop cycle, run in order; the state and the events
accumulate. -/
def run_callbacks (s : State) (m : Option Handle) : List Callback → State × List Event
  | [] => (s, [])
  | c :: cs =>
    let r := run_callback s m c
    let rest := run_callbacks r.state m cs
    (rest.1, r.trace ++ rest.2)

/-- The function `_link_event_loop`. -/
def _link_event_loop (k : Consts) (t : Transport) (s : State) (timeout : Int) : Result :=
  let out := t.mosquitto_loop s.mosq timeout 1
  let cb := run_callbacks s s.mosq out.2
  let s1 := cb.1
  let tr1 := [Event.mosquitto_loop s.mosq timeout 1] ++ cb.2
  if out.1 ≠ MOSQ_ERR_SUCCESS then
    let rc := t.mosquitto_reconnect s1.mosq
    let tr2 := tr1 ++ [Event.set_errno 0, Event.error (Msg.loop_error out.1),
                       Event.mosquitto_reconnect s1.mosq]
    let tr3 := tr2 ++ (if rc ≠ MOSQ_ERR_SUCCESS then [Event.error (Msg.reconnect_error rc)]
                       else [])
    { rc := rc, state := s1,
      trace := tr3 ++ [Event.sleep_usec ((k.USEC_PER_SEC * 10) % 2 ^ 64)] }
  else
    { rc := out.1, state := s1, trace := tr1 }

/-- The function `_link_shutdown`. -/
def _link_shutdown (t : Transport) (s : State) : Result :=
  let rc := t.mosquitto_disconnect s.mosq
  { rc := 0,
    state := { s with mosq := none },
    trace := [Event.mosquitto_disconnect s.mosq,
              Event.info (if rc = MOSQ_ERR_SUCCESS then Msg.disconnected_from_broker
                          else Msg.invalid_structure),
              Event.mosquitto_destroy s.mosq] }

/-- The function `_link_subscribe`. -/
def _link_subscribe (k : Consts) (t : Transport) (s : State) (topic : CStr) : Result :=
  match s.mosq with
  | none => { rc := 1, state := s, trace := [] }
  | some h =>
    let m : Option Handle := some h
    let rc := t.mosquitto_subscribe m topic k.ACLK_QOS
    let tr := [Event.mosquitto_message_callback_set m, Event.mosquitto_subscribe m topic k.ACLK_QOS]
    if rc ≠ 0 then
      { rc := 1, state := s,
        trace := tr ++ [Event.set_errno 0, Event.error (Msg.subscription_failed rc)] }
    else
      { rc := 0, state := s, trace := tr }

/-- The function `_link_send_message`. -/
def _link_send_message (k : Consts) (t : Transport) (s : State) (topic message : CStr) :
    Result :=
  let rc0 := t.mosquitto_pub_topic_check topic
  if rc0 ≠ MOSQ_ERR_SUCCESS then
    { rc := rc0, state := s, trace := [Event.mosquitto_pub_topic_check topic] }
  else
    let msg_len := size_to_int (strlen message)
    let rc := t.mosquitto_publish s.mosq topic msg_len message k.ACLK_QOS 0
    let tr := [Event.mosquitto_pub_topic_check topic,
               Event.mosquitto_publish s.mosq topic msg_len message k.ACLK_QOS 0]
    { rc := rc, state := s,
      trace := tr ++ (if rc ≠ MOSQ_ERR_SUCCESS then [Event.error (Msg.message_failed rc)]
                      else []) }

/-! ## Observations on a trace -/

/-- A call of `mosquitto_publish`. -/
def is_publish : Event → Bool
  | Event.mosquitto_publish _ _ _ _ _ _ => true
  | _ => false

/-- A call of `mosquitto_loop`. -/
def is_loop : Event → Bool
  | Event.mosquitto_loop _ _ _ => true
  | _ => false

/-- A call of `mosquitto_reconnect`. -/
def is_reconnect : Event → Bool
  | Event.mosquitto_reconnect _ => true
  | _ => false

/-- A call through the pointer `_on_disconnect`. -/
def is_on_disconnect : Event → Bool
  | Event.call_on_disconnect _ _ => true
  | _ => false

/-- A line written with `error`. -/
def is_error_line : Event → Bool
  | Event.error _ => true
  | _ => false

/-- A call into libmosquitto. -/
def is_transport : Event → Bool
  | Event.mosquitto_lib_version => true
  | Event.mosquitto_lib_init => true
  | Event.mosquitto_lib_cleanup => true
  | Event.mosquitto_new => true
  | Event.mosquitto_connect_callback_set _ => true
  | Event.mosquitto_disconnect_callback_set _ => true
  | Event.mosquitto_message_callback_set _ => true
  | Event.mosquitto_threaded_set _ _ => true
  | Event.mosquitto_int_option _ _ _ => true
  | Event.mosquitto_reconnect_delay_set _ _ _ _ => true
  | Event.mosquitto_connect_async _ _ _ _ => true
  | Event.mosquitto_loop _ _ _ => true
  | Event.mosquitto_reconnect _ => true
  | Event.mosquitto_disconnect _ => true
  | Event.mosquitto_destroy _ => true
  | Event.mosquitto_subscribe _ _ _ => true
  | Event.mosquitto_pub_topic_check _ => true
  | Event.mosquitto_publish _ _ _ _ _ _ => true
  | _ => false

/-- The disconnect notification among the callbacks of a loop cycle. -/
def is_disconnect_cb : Callback → Bool
  | Callback.disconnect => true
  | _ => false

/-! ## Sample environments -/

/-- Sample values of the macros. -/
def k0 : Consts :=
  { ACLK_RECONNECT_DELAY := 1, ACLK_MAX_RECONNECT_DELAY := 120, ACLK_PING_INTERVAL := 60,
    ACLK_QOS := 1, USEC_PER_SEC := 1000000, MQTT_PROTOCOL_V311 := 4,
    MOSQ_OPT_SEND_MAXIMUM := 5 }

/-- A transport on which everything succeeds on a live handle; as libmosquitto does, it
answers `MOSQ_ERR_INVAL` (3) to a NULL handle and to a topic holding `#` or `+`. -/
def t_ok : Transport :=
  { mosquitto_lib_init := 0,
    mosquitto_new := some 1,
    mosquitto_threaded_set := fun m _ => if m.isSome then 0 else 3,
    mosquitto_int_option := fun m _ _ => if m.isSome then 0 else 3,
    mosquitto_reconnect_delay_set := fun m _ _ _ => if m.isSome then 0 else 3,
    mosquitto_connect_async := fun m _ _ _ => if m.isSome then 0 else 3,
    mosquitto_loop := fun m _ _ => (if m.isSome then 0 else 3, []),
    mosquitto_reconnect := fun m => if m.isSome then 0 else 3,
    mosquitto_disconnect := fun m => if m.isSome then 0 else 3,
    mosquitto_subscribe := fun m _ _ => if m.isSome then 0 else 3,
    mosquitto_pub_topic_check := fun topic =>
      if topic.any (fun c => c == 35 || c == 43) then 3 else 0,
    mosquitto_publish := fun m _ _ _ _ _ => if m.isSome then 0 else 3 }

/-- As `t_ok`, but the loop cycle fails with `MOSQ_ERR_CONN_LOST` (7) and fires no
callback, and the reconnect that follows succeeds. -/
def t_loop_fails : Transport :=
  { t_ok with mosquitto_loop := fun _ _ _ => (7, []) }

/-- A session after a successful `_link_lib_init`: handle 1, handlers 10 and 20. -/
def s_live : State :=
  { mosq := some 1, _on_connect := some 10, _on_disconnect := some 20,
    aclk_connection_initialized := 1 }

/-- The transport `t` with other answers to the tuning calls of `_link_lib_init`: the
thread mode, `mosquitto_int_option` and the reconnect delay. -/
def Transport.with_tuning (t : Transport) (f : Option Handle → Int → Int)
    (g : Option Handle → Int → Int → Int) (d : Option Handle → Int → Int → Int → Int) :
    Transport :=
  { t with
    mosquitto_threaded_set := f
    mosquitto_int_option := g
    mosquitto_reconnect_delay_set := d }

theorem run_callback_state (s : State) (m : Option Handle) (c : Callback) :
    (run_callback s m c).state.mosq = s.mosq ∧
    (run_callback s m c).state._on_connect = s._on_connect ∧
    (run_callback s m c).state._on_disconnect = s._on_disconnect := by
  cases c with
  | connect => simp [run_callback, connect_callback]
  | disconnect => simp [run_callback, disconnect_callback]
  | message msg =>
    simp only [run_callback, mqtt_message_callback]
    split <;> simp

theorem run_callbacks_state (s : State) (m : Option Handle) (cs : List Callback) :
    (run_callbacks s m cs).1.mosq = s.mosq ∧
    (run_callbacks s m cs).1._on_connect = s._on_connect ∧
    (run_callbacks s m cs).1._on_disconnect = s._on_disconnect := by
  induction cs generalizing s with
  | nil => simp [run_callbacks]
  | cons c cs ih =>
    obtain ⟨h1, h2, h3⟩ := run_callback_state s m c
    obtain ⟨i1, i2, i3⟩ := ih (run_callback s m c).state
    simp only [run_callbacks]
    exact ⟨i1.trans h1, i2.trans h2, i3.trans h3⟩

theorem run_callback_no_transport (s : State) (m : Option Handle) (c : Callback) :
    (run_callback s m c).trace.countP is_transport = 0 := by
  cases c with
  | connect => simp [run_callback, connect_callback, is_transport]
  | disconnect => simp [run_callback, disconnect_callback, is_transport]
  | message msg =>
    simp only [run_callback, mqtt_message_callback]
    split <;> simp [is_transport]

theorem run_callbacks_no_transport (s : State) (m : Option Handle) (cs : List Callback) :
    (run_callbacks s m cs).2.countP is_transport = 0 := by
  induction cs generalizing s with
  | nil => simp [run_callbacks]
  | cons c cs ih =>
    simp only [run_callbacks, List.countP_append, run_callback_no_transport, ih]

theorem countP_zero_of_transport (p : Event → Bool) (hp : ∀ e, p e = true → is_transport e = true)
    (l : List Event) (h : l.countP is_transport = 0) : l.countP p = 0 := by
  rw [List.countP_eq_zero] at h ⊢
  intro e he hpe
  exact h e he (hp e hpe)

theorem run_callback_on_disconnect (s : State) (m : Option Handle) (c : Callback) :
    (run_callback s m c).trace.countP is_on_disconnect = if is_disconnect_cb c then 1 else 0 := by
  cases c with
  | connect => simp [run_callback, connect_callback, is_on_disconnect, is_disconnect_cb]
  | disconnect => simp [run_callback, disconnect_callback, is_on_disconnect, is_disconnect_cb]
  | message msg =>
    simp only [run_callback, mqtt_message_callback]
    split <;> simp [is_on_disconnect, is_disconnect_cb]

theorem run_callbacks_on_disconnect (s : State) (m : Option Handle) (cs : List Callback) :
    (run_callbacks s m cs).2.countP is_on_disconnect = cs.countP is_disconnect_cb := by
  induction cs generalizing s with
  | nil => simp [run_callbacks]
  | cons c cs ih =>
    simp only [run_callbacks, List.countP_append, run_callback_on_disconnect, ih,
      List.countP_cons]
    omega

/-! ## The publisher: `_link_send_message` -/

/-- C1: when `mosquitto_pub_topic_check` answers a non-success code for the topic,
`_link_send_message` returns that code, its only call into the transport is the topic
check, and `mosquitto_publish` is called zero times. -/
theorem send_message_rejected_topic (k : Consts) (t : Transport) (s : State)
    (topic message : CStr) (h : t.mosquitto_pub_topic_check topic ≠ MOSQ_ERR_SUCCESS) :
    (_link_send_message k t s topic message).rc = t.mosquitto_pub_topic_check topic ∧
    (_link_send_message k t s topic message).trace = [Event.mosquitto_pub_topic_check topic] ∧
    (_link_send_message k t s topic message).trace.countP is_publish = 0 := by
  simp [_link_send_message, h, is_publish]

/-- C1, at the topic `a/#` on a live session: the check answers 3 and nothing is
published. -/
theorem send_message_rejected_topic_witness :
    t_ok.mosquitto_pub_topic_check [97, 47, 35] ≠ MOSQ_ERR_SUCCESS ∧
    (_link_send_message k0 t_ok s_live [97, 47, 35] [104, 105]).rc
      = t_ok.mosquitto_pub_topic_check [97, 47, 35] ∧
    (_link_send_message k0 t_ok s_live [97, 47, 35] [104, 105]).trace
      = [Event.mosquitto_pub_topic_check [97, 47, 35]] ∧
    (_link_send_message k0 t_ok s_live [97, 47, 35] [104, 105]).trace.countP is_publish = 0 :=
  ⟨by decide, send_message_rejected_topic k0 t_ok s_live [97, 47, 35] [104, 105] (by decide)⟩

/-! ## The servicer: `_link_event_loop` -/

/-- C2: one call of `_link_event_loop` drives `mosquitto_loop` exactly once; it calls
`mosquitto_reconnect` exactly once when the loop cycle answers a non-success code and
not at all when the cycle answers success. -/
theorem event_loop_reconnect_once (k : Consts) (t : Transport) (s : State) (timeout : Int) :
    (_link_event_loop k t s timeout).trace.countP is_loop = 1 ∧
    ((t.mosquitto_loop s.mosq timeout 1).1 ≠ MOSQ_ERR_SUCCESS →
      (_link_event_loop k t s timeout).trace.countP is_reconnect = 1) ∧
    ((t.mosquitto_loop s.mosq timeout 1).1 = MOSQ_ERR_SUCCESS →
      (_link_event_loop k t s timeout).trace.countP is_reconnect = 0) := by
  have hT := run_callbacks_no_transport s s.mosq (t.mosquitto_loop s.mosq timeout 1).2
  have hL := countP_zero_of_transport is_loop
    (fun e he => by cases e <;> simp_all [is_loop, is_transport]) _ hT
  have hR := countP_zero_of_transport is_reconnect
    (fun e he => by cases e <;> simp_all [is_reconnect, is_transport]) _ hT
  refine ⟨?_, ?_, ?_⟩
  · by_cases hrc : (t.mosquitto_loop s.mosq timeout 1).1 = MOSQ_ERR_SUCCESS
    · simp [_link_event_loop, hrc, hL, is_loop]
    · by_cases hre : t.mosquitto_reconnect
          (run_callbacks s s.mosq (t.mosquitto_loop s.mosq timeout 1).2).1.mosq = MOSQ_ERR_SUCCESS
      · simp [_link_event_loop, hrc, hre, hL, is_loop]
      · simp [_link_event_loop, hrc, hre, hL, is_loop]
  · intro hrc
    by_cases hre : t.mosquitto_reconnect
        (run_callbacks s s.mosq (t.mosquitto_loop s.mosq timeout 1).2).1.mosq = MOSQ_ERR_SUCCESS
    · simp [_link_event_loop, hrc, hre, hR, is_reconnect]
    · simp [_link_event_loop, hrc, hre, hR, is_reconnect]
  · intro hrc
    simp [_link_event_loop, hrc, hR, is_reconnect]

/-- C2, at a loop cycle that answers 7 on a live session: one loop call, one
reconnect. -/
theorem event_loop_reconnect_once_witness :
    (t_loop_fails.mosquitto_loop s_live.mosq 1000 1).1 ≠ MOSQ_ERR_SUCCESS ∧
    (_link_event_loop k0 t_loop_fails s_live 1000).trace.countP is_loop = 1 ∧
    (_link_event_loop k0 t_loop_fails s_live 1000).trace.countP is_reconnect = 1 :=
  ⟨by decide, (event_loop_reconnect_once k0 t_loop_fails s_live 1000).1,
    (event_loop_reconnect_once k0 t_loop_fails s_live 1000).2.1 (by decide)⟩

/-- C3 as stated fails: on a live session with both handlers registered, a loop cycle
that answers `MOSQ_ERR_CONN_LOST` without firing the disconnect callback makes
`_link_event_loop` log, reconnect and sleep, and `_on_disconnect` is called zero
times. -/
theorem event_loop_on_disconnect_not_once :
    s_live._on_connect ≠ none ∧ s_live._on_disconnect ≠ none ∧
    (t_loop_fails.mosquitto_loop s_live.mosq 1000 1).1 ≠ MOSQ_ERR_SUCCESS ∧
    (_link_event_loop k0 t_loop_fails s_live 1000).trace
      = [Event.mosquitto_loop (some 1) 1000 1, Event.set_errno 0,
         Event.error (Msg.loop_error 7), Event.mosquitto_reconnect (some 1),
         Event.sleep_usec 10000000] ∧
    (_link_event_loop k0 t_loop_fails s_live 1000).trace.countP is_on_disconnect = 0 ∧
    (_link_event_loop k0 t_loop_fails s_live 1000).trace.countP is_on_disconnect ≠ 1 := by
  decide

/-- C3, amended: during one call of `_link_event_loop`, `_on_disconnect` is called once
for each disconnect notification the transport fires inside the loop cycle, each time
through `disconnect_callback` with the registered handler; the failure path of
`_link_event_loop` itself (log, reconnect, sleep) adds no call, whatever the loop
cycle and the reconnect answer. -/
theorem event_loop_on_disconnect_count (k : Consts) (t : Transport) (s : State)
    (timeout : Int) :
    (_link_event_loop k t s timeout).trace.countP is_on_disconnect
      = (t.mosquitto_loop s.mosq timeout 1).2.countP is_disconnect_cb ∧
    (_link_event_loop k t s timeout).state._on_disconnect = s._on_disconnect := by
  have hD := run_callbacks_on_disconnect s s.mosq (t.mosquitto_loop s.mosq timeout 1).2
  have hS := (run_callbacks_state s s.mosq (t.mosquitto_loop s.mosq timeout 1).2).2.2
  by_cases hrc : (t.mosquitto_loop s.mosq timeout 1).1 = MOSQ_ERR_SUCCESS
  · simp [_link_event_loop, hrc, hD, hS, is_on_disconnect]
  · by_cases hre : t.mosquitto_reconnect
        (run_callbacks s s.mosq (t.mosquitto_loop s.mosq timeout 1).2).1.mosq = MOSQ_ERR_SUCCESS
    · simp [_link_event_loop, hrc, hre, hD, hS, is_on_disconnect]
    · simp [_link_event_loop, hrc, hre, hD, hS, is_on_disconnect]

/-- C4 as stated fails: the loop cycle answers 7 and the reconnect that follows
succeeds; `_link_event_loop` returns 0, the answer of the reconnect, not 7. -/
theorem event_loop_returns_reconnect_code :
    (t_loop_fails.mosquitto_loop s_live.mosq 1000 1).1 = 7 ∧
    (t_loop_fails.mosquitto_loop s_live.mosq 1000 1).1 ≠ MOSQ_ERR_SUCCESS ∧
    t_loop_fails.mosquitto_reconnect s_live.mosq = MOSQ_ERR_SUCCESS ∧
    (_link_event_loop k0 t_loop_fails s_live 1000).rc = MOSQ_ERR_SUCCESS ∧
    (_link_event_loop k0 t_loop_fails s_live 1000).rc ≠ 7 := by
  decide

/-- C4, amended: `_link_event_loop` returns success when the loop cycle answers
success; when the loop cycle answers a non-success code, the value returned is the
answer of the `mosquitto_reconnect` that follows.  Hence it returns success if and only
if the loop cycle succeeded or the reconnect after a failed cycle succeeded. -/
theorem event_loop_return_value (k : Consts) (t : Transport) (s : State) (timeout : Int) :
    ((t.mosquitto_loop s.mosq timeout 1).1 = MOSQ_ERR_SUCCESS →
      (_link_event_loop k t s timeout).rc = MOSQ_ERR_SUCCESS) ∧
    ((t.mosquitto_loop s.mosq timeout 1).1 ≠ MOSQ_ERR_SUCCESS →
      (_link_event_loop k t s timeout).rc = t.mosquitto_reconnect s.mosq) ∧
    ((_link_event_loop k t s timeout).rc = MOSQ_ERR_SUCCESS ↔
      ((t.mosquitto_loop s.mosq timeout 1).1 = MOSQ_ERR_SUCCESS ∨
        t.mosquitto_reconnect s.mosq = MOSQ_ERR_SUCCESS)) := by
  have hS := (run_callbacks_state s s.mosq (t.mosquitto_loop s.mosq timeout 1).2).1
  by_cases hrc : (t.mosquitto_loop s.mosq timeout 1).1 = MOSQ_ERR_SUCCESS
  · simp [_link_event_loop, hrc]
  · simp [_link_event_loop, hrc, hS]

/-- C4 amended, at a loop cycle that answers 7 with no handle, where the reconnect
answers 3: the value returned is 3. -/
theorem event_loop_return_value_witness :
    (t_loop_fails.mosquitto_loop State.init.mosq 1000 1).1 ≠ MOSQ_ERR_SUCCESS ∧
    t_loop_fails.mosquitto_reconnect State.init.mosq = 3 ∧
    (_link_event_loop k0 t_loop_fails State.init 1000).rc
      = t_loop_fails.mosquitto_reconnect State.init.mosq :=
  ⟨by decide, by decide,
    (event_loop_return_value k0 t_loop_fails State.init 1000).2.1 (by decide)⟩

/-- C7 as stated fails: with no handle (the state at program start) and a topic that
passes the check, `_link_send_message` makes no test of `mosq` and calls
`mosquitto_publish` with the NULL handle; the non-success result it returns is the
answer of the transport to that call. -/
theorem send_message_passes_absent_handle :
    State.init.mosq = none ∧
    Event.mosquitto_publish none [97] 2 [104, 105] 1 0
      ∈ (_link_send_message k0 t_ok State.init [97] [104, 105]).trace ∧
    (_link_send_message k0 t_ok State.init [97] [104, 105]).trace.countP is_publish = 1 ∧
    (_link_send_message k0 t_ok State.init [97] [104, 105]).rc
      = t_ok.mosquitto_publish none [97] 2 [104, 105] 1 0 := by
  decide

/-- C7, amended: with the handle absent, `_link_send_message` applies no check of its
own to the handle.  A topic the transport rejects ends the call with that code and no
publish; otherwise `mosquitto_publish` is called exactly once, with the NULL handle,
and its answer is returned, so the result is a non-success one whenever the transport
rejects the NULL handle. -/
theorem send_message_absent_handle (k : Consts) (t : Transport) (s : State)
    (topic message : CStr) (hs : s.mosq = none) :
    (t.mosquitto_pub_topic_check topic ≠ MOSQ_ERR_SUCCESS →
      (_link_send_message k t s topic message).rc = t.mosquitto_pub_topic_check topic ∧
      (_link_send_message k t s topic message).trace.countP is_publish = 0) ∧
    (t.mosquitto_pub_topic_check topic = MOSQ_ERR_SUCCESS →
      Event.mosquitto_publish none topic (size_to_int (strlen message)) message k.ACLK_QOS 0
        ∈ (_link_send_message k t s topic message).trace ∧
      (_link_send_message k t s topic message).trace.countP is_publish = 1 ∧
      (_link_send_message k t s topic message).rc
        = t.mosquitto_publish none topic (size_to_int (strlen message)) message k.ACLK_QOS 0) ∧
    (t.mosquitto_publish none topic (size_to_int (strlen message)) message k.ACLK_QOS 0
        ≠ MOSQ_ERR_SUCCESS →
      (_link_send_message k t s topic message).rc ≠ MOSQ_ERR_SUCCESS) := by
  refine ⟨?_, ?_, ?_⟩
  · intro h
    simp [_link_send_message, h, is_publish]
  · intro h
    by_cases hp : t.mosquitto_publish none topic (size_to_int (strlen message)) message
        k.ACLK_QOS 0 = MOSQ_ERR_SUCCESS
    · simp [_link_send_message, h, hs, hp, is_publish]
    · simp [_link_send_message, h, hs, hp, is_publish]
  · intro hp
    by_cases h : t.mosquitto_pub_topic_check topic = MOSQ_ERR_SUCCESS
    · simpa [_link_send_message, h, hs] using hp
    · simp [_link_send_message, h]

/-- C7 amended, at the state of program start with the topic `a`: the NULL handle reaches
`mosquitto_publish`, which answers 3, and 3 is returned. -/
theorem send_message_absent_handle_witness :
    State.init.mosq = none ∧
    t_ok.mosquitto_publish none [97] (size_to_int (strlen [104, 105])) [104, 105] k0.ACLK_QOS 0
      ≠ MOSQ_ERR_SUCCESS ∧
    (_link_send_message k0 t_ok State.init [97] [104, 105]).rc ≠ MOSQ_ERR_SUCCESS :=
  ⟨by decide, by decide,
    (send_message_absent_handle k0 t_ok State.init [97] [104, 105] (by decide)).2.2
      (by decide)⟩

/-- C8 as stated fails: a topic rejected by the check makes `_link_send_message` return
the non-success code 3 and report no error line. -/
theorem send_message_rejected_topic_silent :
    (_link_send_message k0 t_ok s_live [97, 47, 35] [104, 105]).rc = 3 ∧
    (_link_send_message k0 t_ok s_live [97, 47, 35] [104, 105]).rc ≠ MOSQ_ERR_SUCCESS ∧
    (_link_send_message k0 t_ok s_live [97, 47, 35] [104, 105]).trace.countP is_error_line = 0 ∧
    (_link_send_message k0 t_ok s_live [97, 47, 35] [104, 105]).trace.countP is_error_line ≠ 1 := by
  decide

/-- C8, amended: `_link_send_message` reports exactly one error line when the topic
passes the check and `mosquitto_publish` answers a non-success code, which is then
returned; a topic rejected by the check is returned to the caller with no error line;
a call that returns success reports none. -/
theorem send_message_error_lines (k : Consts) (t : Transport) (s : State)
    (topic message : CStr) :
    (t.mosquitto_pub_topic_check topic = MOSQ_ERR_SUCCESS →
      t.mosquitto_publish s.mosq topic (size_to_int (strlen message)) message k.ACLK_QOS 0
        ≠ MOSQ_ERR_SUCCESS →
      (_link_send_message k t s topic message).rc
        = t.mosquitto_publish s.mosq topic (size_to_int (strlen message)) message k.ACLK_QOS 0 ∧
      (_link_send_message k t s topic message).trace.countP is_error_line = 1) ∧
    (t.mosquitto_pub_topic_check topic ≠ MOSQ_ERR_SUCCESS →
      (_link_send_message k t s topic message).rc = t.mosquitto_pub_topic_check topic ∧
      (_link_send_message k t s topic message).trace.countP is_error_line = 0) ∧
    ((_link_send_message k t s topic message).rc = MOSQ_ERR_SUCCESS →
      (_link_send_message k t s topic message).trace.countP is_error_line = 0) := by
  by_cases h : t.mosquitto_pub_topic_check topic = MOSQ_ERR_SUCCESS
  · by_cases hp : t.mosquitto_publish s.mosq topic (size_to_int (strlen message)) message
        k.ACLK_QOS 0 = MOSQ_ERR_SUCCESS
    · simp [_link_send_message, h, hp, is_error_line]
    · simp [_link_send_message, h, hp, is_error_line]
  · simp [_link_send_message, h, is_error_line]

/-- C8 amended, at a valid topic with no handle: the publish answers 3 and one error
line is reported. -/
theorem send_message_error_lines_witness :
    t_ok.mosquitto_pub_topic_check [97] = MOSQ_ERR_SUCCESS ∧
    (_link_send_message k0 t_ok State.init [97] [104, 105]).rc
      = t_ok.mosquitto_publish State.init.mosq [97] (size_to_int (strlen [104, 105]))
          [104, 105] k0.ACLK_QOS 0 ∧
    (_link_send_message k0 t_ok State.init [97] [104, 105]).trace.countP is_error_line = 1 :=
  ⟨by decide,
    (send_message_error_lines k0 t_ok State.init [97] [104, 105]).1 (by decide) (by decide)⟩

/-! ## The connection manager: `_link_shutdown`, `_link_lib_init` -/

/-- C5: after `_link_shutdown` the handle is absent; applied to a state whose handle is
already absent it returns that state unchanged (handle, both callback slots and the
connection flag); and a second shutdown, whatever the transport answers, leaves the
state of the first. -/
theorem shutdown_idempotent (t t2 : Transport) (s : State) :
    (_link_shutdown t s).state.mosq = none ∧
    (_link_shutdown t s).state._on_connect = s._on_connect ∧
    (_link_shutdown t s).state._on_disconnect = s._on_disconnect ∧
    (s.mosq = none → (_link_shutdown t s).state = s) ∧
    (_link_shutdown t2 (_link_shutdown t s).state).state = (_link_shutdown t s).state := by
  refine ⟨rfl, rfl, rfl, ?_, rfl⟩
  intro h
  cases s
  simp_all [_link_shutdown]

/-- C5, at the state of program start, whose handle is absent: shutdown returns it
unchanged. -/
theorem shutdown_idempotent_witness :
    State.init.mosq = none ∧ (_link_shutdown t_ok State.init).state = State.init :=
  ⟨by decide, (shutdown_idempotent t_ok t_ok State.init).2.2.2.1 (by decide)⟩

/-- C10: `_link_lib_init` returns 0 exactly when `mosquitto_lib_init` succeeds,
`mosquitto_new` gives a handle and `mosquitto_connect_async` on that handle succeeds,
and 1 otherwise; the answers to the thread mode, the two `mosquitto_int_option` calls
and the reconnect delay have no part in the result or in the state; on success the
handle is the one created and the two slots hold the handlers supplied. -/
theorem lib_init_result (k : Consts) (t : Transport) (s : State) (host : CStr) (port : Int)
    (on_connect on_disconnect : Option Handler) :
    ((_link_lib_init k t s host port on_connect on_disconnect).rc = 0 ↔
      (t.mosquitto_lib_init = MOSQ_ERR_SUCCESS ∧ t.mosquitto_new ≠ none ∧
        t.mosquitto_connect_async t.mosquitto_new host port k.ACLK_PING_INTERVAL
          = MOSQ_ERR_SUCCESS)) ∧
    ((_link_lib_init k t s host port on_connect on_disconnect).rc = 0 ∨
      (_link_lib_init k t s host port on_connect on_disconnect).rc = 1) ∧
    (∀ (f : Option Handle → Int → Int) (g : Option Handle → Int → Int → Int)
        (d : Option Handle → Int → Int → Int → Int),
      (_link_lib_init k (t.with_tuning f g d) s host port on_connect on_disconnect).rc
        = (_link_lib_init k t s host port on_connect on_disconnect).rc ∧
      (_link_lib_init k (t.with_tuning f g d) s host port on_connect on_disconnect).state
        = (_link_lib_init k t s host port on_connect on_disconnect).state) ∧
    ((_link_lib_init k t s host port on_connect on_disconnect).rc = 0 →
      (_link_lib_init k t s host port on_connect on_disconnect).state.mosq = t.mosquitto_new ∧
      (_link_lib_init k t s host port on_connect on_disconnect).state.mosq ≠ none ∧
      (_link_lib_init k t s host port on_connect on_disconnect).state._on_connect = on_connect ∧
      (_link_lib_init k t s host port on_connect on_disconnect).state._on_disconnect
        = on_disconnect) := by
  by_cases h1 : t.mosquitto_lib_init = MOSQ_ERR_SUCCESS
  · cases h2 : t.mosquitto_new with
    | none => simp [_link_lib_init, Transport.with_tuning, h1, h2]
    | some h =>
      by_cases h3 : t.mosquitto_connect_async (some h) host port k.ACLK_PING_INTERVAL
          = MOSQ_ERR_SUCCESS
      · simp [_link_lib_init, Transport.with_tuning, h1, h2, h3]
      · simp [_link_lib_init, Transport.with_tuning, h1, h2, h3]
  · simp [_link_lib_init, Transport.with_tuning, h1]

/-- C10, at a transport on which everything succeeds: the result is 0, the handle is
the one created and the slots hold the handlers 10 and 20. -/
theorem lib_init_result_witness :
    (_link_lib_init k0 t_ok State.init [104] 1883 (some 10) (some 20)).rc = 0 ∧
    (_link_lib_init k0 t_ok State.init [104] 1883 (some 10) (some 20)).state.mosq
      = t_ok.mosquitto_new ∧
    (_link_lib_init k0 t_ok State.init [104] 1883 (some 10) (some 20)).state.mosq ≠ none ∧
    (_link_lib_init k0 t_ok State.init [104] 1883 (some 10) (some 20)).state._on_connect
      = some 10 ∧
    (_link_lib_init k0 t_ok State.init [104] 1883 (some 10) (some 20)).state._on_disconnect
      = some 20 :=
  ⟨by decide,
    (lib_init_result k0 t_ok State.init [104] 1883 (some 10) (some 20)).2.2.2 (by decide)⟩

/-! ## The subscriber and dispatcher: `_link_subscribe`, `mqtt_message_callback` -/

/-- C9: with the handle absent `_link_subscribe` returns 1 and calls nothing; with a
handle present its calls into the transport are `mosquitto_message_callback_set`
followed by `mosquitto_subscribe`, in that order and once each, and it returns 0 if and
only if `mosquitto_subscribe` answers success, 1 otherwise. -/
theorem subscribe_result (k : Consts) (t : Transport) (s : State) (topic : CStr) :
    (s.mosq = none →
      (_link_subscribe k t s topic).rc = 1 ∧ (_link_subscribe k t s topic).trace = []) ∧
    (∀ h : Handle, s.mosq = some h →
      (∃ rest : List Event,
        (_link_subscribe k t s topic).trace
          = Event.mosquitto_message_callback_set (some h)
            :: Event.mosquitto_subscribe (some h) topic k.ACLK_QOS :: rest ∧
        rest.countP is_transport = 0) ∧
      ((_link_subscribe k t s topic).rc = 0 ↔
        t.mosquitto_subscribe (some h) topic k.ACLK_QOS = MOSQ_ERR_SUCCESS) ∧
      ((_link_subscribe k t s topic).rc ≠ 0 → (_link_subscribe k t s topic).rc = 1)) := by
  refine ⟨?_, ?_⟩
  · intro h
    simp [_link_subscribe, h]
  · intro h hs
    by_cases hr : t.mosquitto_subscribe (some h) topic k.ACLK_QOS = 0
    · simp [_link_subscribe, hs, hr, MOSQ_ERR_SUCCESS]
    · simp [_link_subscribe, hs, hr, MOSQ_ERR_SUCCESS, is_transport]

/-- C9, on a live session with the topic `a`: the callback is registered, then the
subscribe is issued, and the result is 0. -/
theorem subscribe_result_witness :
    s_live.mosq = some 1 ∧
    (∃ rest : List Event,
      (_link_subscribe k0 t_ok s_live [97]).trace
        = Event.mosquitto_message_callback_set (some 1)
          :: Event.mosquitto_subscribe (some 1) [97] k0.ACLK_QOS :: rest ∧
      rest.countP is_transport = 0) ∧
    ((_link_subscribe k0 t_ok s_live [97]).rc = 0 ↔
      t_ok.mosquitto_subscribe (some 1) [97] k0.ACLK_QOS = MOSQ_ERR_SUCCESS) :=
  ⟨by decide, ((subscribe_result k0 t_ok s_live [97]).2 1 (by decide)).1,
    ((subscribe_result k0 t_ok s_live [97]).2 1 (by decide)).2.1⟩

end Aclk
